import Mathlib

/-
Verification of the sfdc-bulk client (src/sfdc_bulk/api.py) against its
natural-language specification.

The Python module is embedded shallowly:
  - the dataset handed to df_chunks is a list of rows carrying the default
    integer range index, and the pandas label-based slice df.loc[a:b, :] is
    the inclusive slice of positions a..b;
  - the remote Bulk API is an oracle assigning a parsed status record to
    each object id; HTTP transport is assumed to succeed (status < 400),
    as transport failures are outside every claim considered here;
  - the class-body collections jobs, job_statuses, batches, batch_statuses
    (api.py lines 37..41) are class attributes of SalesforceBulkAPI: the
    methods mutate them in place and __init__ never rebinds them on self,
    so every instance aliases one shared BulkState; __init__ assigns only
    session_id, endpoint, batch_size and the logger per instance;
  - Python exceptions become an explicit result type carrying the error,
    the (already mutated) shared state at raise time, and the list of
    remote status queries issued by the call.
-/

namespace SfdcBulk

/-- Module-level constant ERROR_STATES (api.py line 12): a real tuple. -/
def ERROR_STATES : List String := ["Failed", "Not Processed"]

/-- Module-level constant PENDING_STATES (api.py line 13): a real tuple. -/
def PENDING_STATES : List String := ["InProcess", "Queued"]

/-- Module-level constant COMPLETED_STATES (api.py line 14).
In Python, ("Completed") with no comma is the string "Completed",
not a one-element tuple. -/
def COMPLETED_STATES : String := "Completed"

/-- Python membership x in y for strings: x is a contiguous substring of y. -/
def pyIn (needle hay : String) : Bool :=
  (List.range (hay.data.length + 1)).any fun i =>
    decide ((hay.data.drop i).take needle.data.length = needle.data)

/-- A parsed status record, as produced by parse_xml on a status response.
Only the fields the lifecycle logic reads are modelled. -/
structure StatusRecord where
  state : String
  stateMessage : String
deriving DecidableEq, Repr

/-- The remote Bulk API as seen through status GETs: object id to record. -/
abbrev Oracle := String → StatusRecord

/-- The class-level mutable collections of SalesforceBulkAPI
(api.py lines 37..41), shared by every instance of the class.
Python dicts are insertion-ordered association lists. -/
structure BulkState where
  jobs : List String
  job_statuses : List (String × StatusRecord)
  batches : List (String × List String)
  batch_statuses : List (String × StatusRecord)
deriving DecidableEq, Repr

/-- The per-instance attributes that __init__ (api.py lines 43..66)
actually assigns on self. -/
structure InstanceAttrs where
  session_id : String
  endpoint : String
  batch_size : Nat
deriving DecidableEq, Repr

/-- The Python exceptions the embedded methods can raise. -/
inductive PyErr where
  | bulkApiError (message : String)
  | bulkBatchFailed (job_id : String) (batch_id : String) (state_message : String)
  | unknownBatch (batch_id : String)
  | jobHasNoBatches (job_id : String)
deriving DecidableEq, Repr

/-- Outcome of a method call: a value or a raised exception, together with
the shared mutable state after the call (mutations performed before a raise
persist, as in Python) and the ids remotely queried for status, in order. -/
inductive PyResult (α : Type) where
  | ok (val : α) (s : BulkState) (queries : List String)
  | exn (e : PyErr) (s : BulkState) (queries : List String)
deriving DecidableEq, Repr

/-- Python dict item assignment d[k] = v on an insertion-ordered dict:
overwrite in place when the key exists, append otherwise. -/
def dictSet {β : Type} (d : List (String × β)) (k : String) (v : β) :
    List (String × β) :=
  if d.any (fun p => p.1 == k) then
    d.map fun p => if p.1 == k then (k, v) else p
  else
    d ++ [(k, v)]

/-- lookup_job_id (api.py lines 83..88): scan the batches dict in insertion
order and return the first job whose batch list contains the batch id;
raise a generic Exception when none does. -/
def lookup_job_id (s : BulkState) (batch_id : String) : Except PyErr String :=
  match s.batches.find? (fun p => p.2.contains batch_id) with
  | some p => Except.ok p.1
  | none => Except.error (PyErr.unknownBatch batch_id)

/-- The obj_type argument of get_status. -/
inductive ObjType where
  | job
  | batch
deriving DecidableEq, Repr

/-- get_status (api.py lines 105..121). Note the final store
self.job_statuses[obj_id] = req2 is unconditional in the source: a batch
status fetched remotely is cached under job_statuses, never under
batch_statuses. -/
def get_status (remote : Oracle) (s : BulkState) (obj_id : String)
    (obj_type : ObjType) (reload : Bool) : PyResult StatusRecord :=
  match obj_type with
  | ObjType.job =>
    match (if reload then none else s.job_statuses.lookup obj_id) with
    | some r => PyResult.ok r s []
    | none =>
      let req2 := remote obj_id
      PyResult.ok req2
        { s with job_statuses := dictSet s.job_statuses obj_id req2 } [obj_id]
  | ObjType.batch =>
    match (if reload then none else s.batch_statuses.lookup obj_id) with
    | some r => PyResult.ok r s []
    | none =>
      match lookup_job_id s obj_id with
      | Except.error e => PyResult.exn e s []
      | Except.ok _ =>
        let req2 := remote obj_id
        PyResult.ok req2
          { s with job_statuses := dictSet s.job_statuses obj_id req2 } [obj_id]

/-- is_batch_done (api.py lines 123..139). The early return fires only when
batch_statuses holds the id and its state passes the substring test against
COMPLETED_STATES; otherwise the status is force-reloaded, error states raise
BulkBatchFailed, and the substring test decides the returned Bool. -/
def is_batch_done (remote : Oracle) (s : BulkState) (batch_id : String) :
    PyResult Bool :=
  if (s.batch_statuses.lookup batch_id).elim false
      (fun r => pyIn r.state COMPLETED_STATES) then
    PyResult.ok true s []
  else
    match get_status remote s batch_id ObjType.batch true with
    | PyResult.exn e s1 q => PyResult.exn e s1 q
    | PyResult.ok batch_status s1 q =>
      if ERROR_STATES.contains batch_status.state then
        match lookup_job_id s1 batch_id with
        | Except.error e => PyResult.exn e s1 q
        | Except.ok job_id =>
          PyResult.exn
            (PyErr.bulkBatchFailed job_id batch_id batch_status.stateMessage)
            s1 q
      else
        PyResult.ok (pyIn batch_status.state COMPLETED_STATES) s1 q

/-- The for loop of is_job_done (api.py lines 143..149): check each batch in
registration order, break with False at the first batch that is not done. -/
def is_job_done_loop (remote : Oracle) :
    List String → BulkState → List String → PyResult Bool
  | [], s, log => PyResult.ok true s log
  | b :: rest, s, log =>
    match is_batch_done remote s b with
    | PyResult.exn e s1 q => PyResult.exn e s1 (log ++ q)
    | PyResult.ok done s1 q =>
      if done then is_job_done_loop remote rest s1 (log ++ q)
      else PyResult.ok false s1 (log ++ q)

/-- is_job_done (api.py lines 141..152). The try/except KeyError wraps the
dict access self.batches[job_id]: a job id absent from the batches dict
raises the job-has-no-batches Exception; a present job id iterates its
batch list (no other KeyError can arise in the modelled record fields). -/
def is_job_done (remote : Oracle) (s : BulkState) (job_id : String) :
    PyResult Bool :=
  match s.batches.lookup job_id with
  | none => PyResult.exn (PyErr.jobHasNoBatches job_id) s []
  | some l => is_job_done_loop remote l s []

/-- The while loop of wait_for_batch (api.py lines 154..159): poll
is_batch_done, then while not done and waited < timeout, sleep and add
sleep_interval to waited. A positive sleep_interval is required: with
sleep_interval = 0 the source loops forever when the batch stays pending. -/
def wait_for_batch_loop (remote : Oracle) (batch_id : String)
    (timeout sleep_interval : Nat) (hsi : 0 < sleep_interval)
    (waited : Nat) (s : BulkState) (log : List String) : PyResult Unit :=
  match is_batch_done remote s batch_id with
  | PyResult.exn e s1 q => PyResult.exn e s1 (log ++ q)
  | PyResult.ok done s1 q =>
    if done then PyResult.ok () s1 (log ++ q)
    else if _h : waited < timeout then
      wait_for_batch_loop remote batch_id timeout sleep_interval hsi
        (waited + sleep_interval) s1 (log ++ q)
    else PyResult.ok () s1 (log ++ q)
termination_by timeout - waited
decreasing_by omega

/-- wait_for_batch (api.py lines 154..159), starting from waited = 0. -/
def wait_for_batch (remote : Oracle) (s : BulkState) (batch_id : String)
    (timeout sleep_interval : Nat) (hsi : 0 < sleep_interval) : PyResult Unit :=
  wait_for_batch_loop remote batch_id timeout sleep_interval hsi 0 s []

/-- The pandas label-based slice df.loc[a:b, :] on the default integer range
index: both endpoints are included, labels beyond the last row are clamped. -/
def df_loc_slice {α : Type} (df : List α) (a b : Nat) : List α :=
  (df.drop a).take (b + 1 - a)

/-- df_chunks (api.py lines 97..102): n_chunks = len(df) // batch_size + 1
and chunk i is df.loc[i*batch_size : (i+1)*batch_size, :]. -/
def df_chunks {α : Type} (batch_size : Nat) (df : List α) : List (List α) :=
  let n_chunks := df.length / batch_size + 1
  (List.range n_chunks).map fun i =>
    df_loc_slice df (i * batch_size) ((i + 1) * batch_size)

/-- The jobInfo namespace attribute (api.py line 37). -/
def jobNS : String := "http://www.force.com/2009/06/asyncapi/dataload"

/-- The param_order list of create_job_doc (api.py line 213). -/
def param_order : List String :=
  ["operation", "object", "externalIdFieldName", "concurrencyMode",
   "contentType"]

/-- The OrderedDict built by create_job_doc (api.py lines 212..217): first
the param_order keys present in kwargs, in param_order order, then the
remaining kwargs keys in insertion order. kwargs models a Python keyword
dict: insertion-ordered pairs with distinct keys. -/
def kwargs_ordered (kwargs : List (String × String)) : List (String × String) :=
  (param_order.filterMap fun p => (kwargs.lookup p).map fun v => (p, v))
    ++ kwargs.filter fun q => !(param_order.contains q.1)

/-- The produced job-creation document, at the element-tree level (XML
serialization mechanics are an external collaborator): the prepended XML
declaration, the root tag with its xmlns attribute, and the child elements
as (tag, text) pairs in document order. -/
structure XmlDoc where
  xml_declaration : String
  rootTag : String
  xmlns : String
  children : List (String × String)
deriving DecidableEq, Repr

/-- create_job_doc (api.py lines 207..225): a jobInfo root in the async-API
namespace, children in kwargs_ordered order, and the XML declaration bytes
prepended by line 224 (ET.tostring with encoding UTF-8 emits no declaration
of its own under Python 3, since utf-8 is in its no-declaration list). -/
def create_job_doc (kwargs : List (String × String)) : XmlDoc :=
  { xml_declaration := "<?xml version=\"1.0\" encoding=\"UTF-8\"?>"
    rootTag := "jobInfo"
    xmlns := jobNS
    children := kwargs_ordered kwargs }

/-- The local registration create_job performs after the remote POST returns
a job id (api.py lines 196..198): self.jobs.append(job_id) and
self.batches[job_id] = []. Both collections are class attributes, so the
mutation lands in the one shared BulkState. -/
def create_job_register (s : BulkState) (job_id : String) : BulkState :=
  { s with
    jobs := s.jobs ++ [job_id]
    batches := dictSet s.batches job_id [] }

/-- Reading self.jobs through an instance: attribute lookup on the instance
falls through to the class attribute, so every instance observes the one
shared list, whatever its own session, endpoint or batch size. -/
def observed_jobs (_inst : InstanceAttrs) (classState : BulkState) :
    List String :=
  classState.jobs

/-- Reading self.batches through an instance: same class-attribute fall
through as observed_jobs. -/
def observed_batches (_inst : InstanceAttrs) (classState : BulkState) :
    List (String × List String) :=
  classState.batches

/-- The state mutation a force-reloaded batch status query performs:
the record is stored under job_statuses (the source slip), batch_statuses
and batches are untouched. -/
def pollState (s : BulkState) (obj_id : String) (r : StatusRecord) : BulkState :=
  { s with job_statuses := dictSet s.job_statuses obj_id r }

/-- create_job performed through a given instance: the acting instance
supplies only the session token and endpoint of the HTTP POST; the local
registration mutates the class-level collections shared by all instances. -/
def create_job_via (_acting : InstanceAttrs) (s : BulkState) (job_id : String) :
    BulkState :=
  create_job_register s job_id

/-- Whether a remote-reported batch state passes the is_batch_done success
test: the Python substring test against COMPLETED_STATES. -/
def doneB (remote : Oracle) (b : String) : Bool :=
  pyIn (remote b).state COMPLETED_STATES

/-- The batch ids a single is_job_done call polls remotely when none is in
an error state: the leading run of done batches plus the first pending one,
or the whole list when every batch is done. -/
def polled_until_pending (remote : Oracle) (l : List String) : List String :=
  match l.dropWhile (doneB remote) with
  | [] => l
  | b :: _ => l.takeWhile (doneB remote) ++ [b]

/-- A shared state with one job owning one batch and empty caches: the
shape create_job followed by one batch registration produces. -/
def s3 : BulkState := ⟨["job1"], [], [("job1", ["b1"])], []⟩

/-- The shared state after a Completed status for batch b1 was fetched from
s3: the record lands in job_statuses, batch_statuses stays empty. -/
def s3b : BulkState :=
  ⟨["job1"], [("b1", ⟨"Completed", ""⟩)], [("job1", ["b1"])], []⟩

/-- A registered job whose batch list is empty, exactly as create_job
leaves it before any batch is submitted. -/
def s4 : BulkState := ⟨["job1"], [], [("job1", [])], []⟩

/-- A job with three registered batches and empty caches. -/
def s7 : BulkState := ⟨["j1"], [], [("j1", ["b1", "b2", "b3"])], []⟩

/-- The shared class-level state before any job is created. -/
def emptyBulkState : BulkState := ⟨[], [], [], []⟩

/-- A remote on which every batch reports the Completed terminal state. -/
def remoteCompleted : Oracle := fun _ => ⟨"Completed", ""⟩

/-- A remote on which every batch reports the Failed terminal-error state
with message boom. -/
def remoteFailed : Oracle := fun _ => ⟨"Failed", "boom"⟩

/-- A remote on which every batch stays in the InProcess pending state. -/
def oraclePending : Oracle := fun _ => ⟨"InProcess", ""⟩

/-- A remote on which every batch stays in the Queued pending state. -/
def remoteQueued : Oracle := fun _ => ⟨"Queued", ""⟩

/-- A remote reporting the truncated state string Complete, a strict
substring of Completed. -/
def remoteComplete : Oracle := fun _ => ⟨"Complete", ""⟩

/-- A remote on which batch b2 is pending and every other batch is done. -/
def remote3 : Oracle :=
  fun b => if b == "b2" then ⟨"InProcess", ""⟩ else ⟨"Completed", ""⟩

/-- An example keyword dict for create_job_doc, in an insertion order that
differs from param_order and with one field outside param_order. -/
def kwargs0 : List (String × String) :=
  [("object", "Account"), ("operation", "insert"), ("contentType", "CSV"),
   ("assignmentRuleId", "X")]

/-- Two distinct orchestrator instances with their own sessions, endpoints
and batch sizes. -/
def instA : InstanceAttrs :=
  ⟨"sessionA", "https://na1-api.salesforce.com/services/async/37.0", 5000⟩

/-- A second orchestrator instance, distinct from instA in every field. -/
def instB : InstanceAttrs :=
  ⟨"sessionB", "https://na2-api.salesforce.com/services/async/37.0", 200⟩

/-- The Python substring test agrees with the mathematical substring
characterization: pyIn needle hay holds exactly when the characters of
needle occur contiguously inside hay. -/
theorem pyIn_iff (needle hay : String) :
    pyIn needle hay = true ↔
      ∃ pre post : List Char, pre ++ needle.data ++ post = hay.data := by
  unfold pyIn
  rw [List.any_eq_true]
  constructor
  · rintro ⟨i, hi, hdec⟩
    rw [List.mem_range] at hi
    rw [decide_eq_true_eq] at hdec
    refine ⟨hay.data.take i, hay.data.drop (i + needle.data.length), ?_⟩
    have h2 : hay.data.drop i =
        needle.data ++ hay.data.drop (i + needle.data.length) := by
      conv_lhs =>
        rw [← List.take_append_drop needle.data.length (hay.data.drop i)]
      rw [hdec, List.drop_drop]
    conv_rhs => rw [← List.take_append_drop i hay.data, h2]
    rw [List.append_assoc]
  · rintro ⟨pre, post, h⟩
    refine ⟨pre.length, ?_, ?_⟩
    · rw [List.mem_range]
      have hlen : pre.length + needle.data.length + post.length =
          hay.data.length := by
        rw [← h]; simp only [List.length_append]
      omega
    · rw [decide_eq_true_eq, ← h, List.append_assoc, List.drop_left,
        List.take_left]

/-- lookup_job_id reads only the batches dict, which an update of
job_statuses leaves untouched. -/
theorem lookup_job_id_pollState (s : BulkState) (b : String) (r : StatusRecord)
    (b' : String) : lookup_job_id (pollState s b r) b' = lookup_job_id s b' :=
  rfl

/-- lookup_job_id, stated on the literal record update the unfolded
get_status produces. -/
theorem lookup_job_id_set (s : BulkState) (d : List (String × StatusRecord))
    (b' : String) :
    lookup_job_id { s with job_statuses := d } b' = lookup_job_id s b' :=
  rfl

/-- When the batch cache misses, the batch is registered, and the remote
state is not an error state, is_batch_done polls once, caches the record
under job_statuses, and returns the substring test on the fetched state. -/
theorem is_batch_done_poll_ok (remote : Oracle) (s : BulkState) (b j : String)
    (hnc : s.batch_statuses.lookup b = none)
    (hreg : lookup_job_id s b = Except.ok j)
    (herr : ERROR_STATES.contains (remote b).state = false) :
    is_batch_done remote s b =
      PyResult.ok (pyIn (remote b).state COMPLETED_STATES)
        (pollState s b (remote b)) [b] := by
  unfold is_batch_done get_status
  simp [hnc, hreg, lookup_job_id_set, herr, pollState]
  simpa using herr

/-- When the batch cache misses, the batch is registered, and the remote
state is an error state, is_batch_done raises BulkBatchFailed carrying the
looked-up job id, the batch id and the remote state message, with the
fetched record cached under job_statuses. -/
theorem is_batch_done_poll_exn (remote : Oracle) (s : BulkState) (b j : String)
    (hnc : s.batch_statuses.lookup b = none)
    (hreg : lookup_job_id s b = Except.ok j)
    (herr : ERROR_STATES.contains (remote b).state = true) :
    is_batch_done remote s b =
      PyResult.exn (PyErr.bulkBatchFailed j b (remote b).stateMessage)
        (pollState s b (remote b)) [b] := by
  unfold is_batch_done get_status
  simp [hnc, hreg, lookup_job_id_set, herr, pollState]
  simpa using herr

/-- A successful assoc-list lookup exhibits a member pair. -/
theorem lookup_mem {β : Type} (d : List (String × β)) (k : String) (v : β)
    (h : d.lookup k = some v) : (k, v) ∈ d := by
  induction d with
  | nil => simp [List.lookup] at h
  | cons q t ih =>
    obtain ⟨k1, v1⟩ := q
    rw [List.lookup] at h
    cases hk : k == k1 with
    | true =>
      rw [hk] at h
      simp only [Option.some.injEq] at h
      have hk' : k = k1 := by simpa using hk
      subst hk'
      subst h
      exact List.mem_cons_self _ _
    | false =>
      rw [hk] at h
      exact List.mem_cons_of_mem _ (ih h)

/-- Every batch recorded under some job in the batches dict is found by
lookup_job_id. -/
theorem lookup_job_id_ok_of_entry (s : BulkState) (job_id : String)
    (l : List String) (b : String) (hl : s.batches.lookup job_id = some l)
    (hb : b ∈ l) : ∃ j, lookup_job_id s b = Except.ok j := by
  have hmem : (job_id, l) ∈ s.batches := lookup_mem _ _ _ hl
  have hsome : (s.batches.find? fun p => p.2.contains b).isSome := by
    rw [List.find?_isSome]
    exact ⟨(job_id, l), hmem, by simpa using hb⟩
  obtain ⟨p, hp⟩ := Option.isSome_iff_exists.mp hsome
  exact ⟨p.1, by unfold lookup_job_id; rw [hp]⟩

/-- Prepending a done batch prepends it to the polled list. -/
theorem polled_cons_done (remote : Oracle) (b : String) (rest : List String)
    (hd : doneB remote b = true) :
    polled_until_pending remote (b :: rest) =
      b :: polled_until_pending remote rest := by
  unfold polled_until_pending
  simp only [List.dropWhile_cons, List.takeWhile_cons, hd, if_true]
  cases h : rest.dropWhile (doneB remote) with
  | nil => simp [h]
  | cons c cs => simp [h]

/-- A pending batch at the head is the only batch polled. -/
theorem polled_cons_pending (remote : Oracle) (b : String) (rest : List String)
    (hd : doneB remote b = false) :
    polled_until_pending remote (b :: rest) = [b] := by
  unfold polled_until_pending
  simp [List.dropWhile_cons, List.takeWhile_cons, hd]

/-- The is_job_done loop, on batches with empty cache entries and no error
states: it returns the conjunction of the done tests, polls exactly the
batches up to and including the first pending one, and leaves the batches
dict and the batch-level cache unchanged. -/
theorem is_job_done_loop_spec (remote : Oracle) (l : List String) :
    ∀ (s : BulkState) (log : List String),
      (∀ b ∈ l, s.batch_statuses.lookup b = none) →
      (∀ b ∈ l, ERROR_STATES.contains (remote b).state = false) →
      (∀ b ∈ l, ∃ j, lookup_job_id s b = Except.ok j) →
      ∃ s', is_job_done_loop remote l s log =
          PyResult.ok (l.all (doneB remote)) s'
            (log ++ polled_until_pending remote l) ∧
        s'.batch_statuses = s.batch_statuses ∧ s'.batches = s.batches := by
  induction l with
  | nil =>
    intro s log _ _ _
    refine ⟨s, ?_, rfl, rfl⟩
    simp [is_job_done_loop, polled_until_pending]
  | cons b rest ih =>
    intro s log hnc herr hreg
    obtain ⟨j, hj⟩ := hreg b (List.mem_cons_self _ _)
    have hb := is_batch_done_poll_ok remote s b j
      (hnc b (List.mem_cons_self _ _)) hj (herr b (List.mem_cons_self _ _))
    cases hd : doneB remote b with
    | true =>
      have hpy : pyIn (remote b).state COMPLETED_STATES = true := hd
      have hnc' : ∀ x ∈ rest,
          (pollState s b (remote b)).batch_statuses.lookup x = none :=
        fun x hx => hnc x (List.mem_cons_of_mem _ hx)
      have hreg' : ∀ x ∈ rest,
          ∃ j', lookup_job_id (pollState s b (remote b)) x = Except.ok j' := by
        intro x hx
        obtain ⟨j', hj'⟩ := hreg x (List.mem_cons_of_mem _ hx)
        exact ⟨j', by rw [lookup_job_id_pollState]; exact hj'⟩
      obtain ⟨s', hs', hbs, hbb⟩ := ih (pollState s b (remote b)) (log ++ [b])
        hnc' (fun x hx => herr x (List.mem_cons_of_mem _ hx)) hreg'
      refine ⟨s', ?_, hbs, hbb⟩
      have hstep : is_job_done_loop remote (b :: rest) s log =
          is_job_done_loop remote rest (pollState s b (remote b))
            (log ++ [b]) := by
        simp [is_job_done_loop, hb, hpy]
      rw [hstep, hs', polled_cons_done remote b rest hd, List.all_cons, hd]
      simp [List.append_assoc]
    | false =>
      have hpy : pyIn (remote b).state COMPLETED_STATES = false := hd
      refine ⟨pollState s b (remote b), ?_, rfl, rfl⟩
      have hstep : is_job_done_loop remote (b :: rest) s log =
          PyResult.ok false (pollState s b (remote b)) (log ++ [b]) := by
        simp [is_job_done_loop, hb, hpy]
      rw [hstep, polled_cons_pending remote b rest hd, List.all_cons, hd]
      simp

/-- One iteration of the wait_for_batch loop on a registered, uncached,
never-terminal batch: poll once, then either recurse with waited advanced
by sleep_interval or exit normally once waited has reached timeout. -/
theorem wait_loop_step (remote : Oracle) (b j : String) (timeout si : Nat)
    (hsi : 0 < si) (waited : Nat) (s : BulkState) (log : List String)
    (hnc : s.batch_statuses.lookup b = none)
    (hreg : lookup_job_id s b = Except.ok j)
    (herr : ERROR_STATES.contains (remote b).state = false)
    (hnd : pyIn (remote b).state COMPLETED_STATES = false) :
    wait_for_batch_loop remote b timeout si hsi waited s log =
      if waited < timeout then
        wait_for_batch_loop remote b timeout si hsi (waited + si)
          (pollState s b (remote b)) (log ++ [b])
      else PyResult.ok () (pollState s b (remote b)) (log ++ [b]) := by
  rw [wait_for_batch_loop]
  rw [is_batch_done_poll_ok remote s b j hnc hreg herr]
  simp [hnd, dite_eq_ite]

/-- The wait_for_batch loop on a batch whose remote state never becomes
terminal: the loop always exits normally, and it leaves the batch-level
cache entry and the registration of the batch untouched. -/
theorem wait_loop_pending_aux (remote : Oracle) (b j : String)
    (timeout si : Nat) (hsi : 0 < si)
    (herr : ERROR_STATES.contains (remote b).state = false)
    (hnd : pyIn (remote b).state COMPLETED_STATES = false) :
    ∀ (n waited : Nat) (s : BulkState) (log : List String),
      timeout - waited ≤ n →
      s.batch_statuses.lookup b = none →
      lookup_job_id s b = Except.ok j →
      ∃ s' q, wait_for_batch_loop remote b timeout si hsi waited s log =
          PyResult.ok () s' q ∧
        s'.batch_statuses.lookup b = none ∧
        lookup_job_id s' b = Except.ok j := by
  intro n
  induction n with
  | zero =>
    intro waited s log hle hnc hreg
    have hw : ¬ waited < timeout := by omega
    rw [wait_loop_step remote b j timeout si hsi waited s log hnc hreg herr
      hnd, if_neg hw]
    exact ⟨pollState s b (remote b), log ++ [b], rfl, hnc, hreg⟩
  | succ n ih =>
    intro waited s log hle hnc hreg
    rw [wait_loop_step remote b j timeout si hsi waited s log hnc hreg herr
      hnd]
    by_cases hw : waited < timeout
    · rw [if_pos hw]
      exact ih (waited + si) (pollState s b (remote b)) (log ++ [b])
        (by omega) hnc hreg
    · rw [if_neg hw]
      exact ⟨pollState s b (remote b), log ++ [b], rfl, hnc, hreg⟩

/-- An assoc-list lookup succeeds exactly when the key occurs among the
first components. -/
theorem lookup_isSome_iff {β : Type} (d : List (String × β)) (p : String) :
    (d.lookup p).isSome = (d.map Prod.fst).contains p := by
  induction d with
  | nil => rfl
  | cons q t ih =>
    obtain ⟨k1, v1⟩ := q
    rw [List.lookup, List.map_cons]
    cases hk : p == k1 with
    | true => simp [List.contains_cons, hk]
    | false => simp [List.contains_cons, hk, ih]

/-- The keys of the lookup-driven part of kwargs_ordered are the param_order
keys that occur in kwargs, kept in param_order order. -/
theorem map_fst_filterMap_lookup (kwargs : List (String × String))
    (ps : List String) :
    (ps.filterMap fun p => (kwargs.lookup p).map fun v => (p, v)).map
        Prod.fst =
      ps.filter fun p => (kwargs.map Prod.fst).contains p := by
  induction ps with
  | nil => rfl
  | cons p t ih =>
    rw [List.filterMap_cons, List.filter_cons]
    cases h : kwargs.lookup p with
    | none =>
      have hc : (kwargs.map Prod.fst).contains p = false := by
        rw [← lookup_isSome_iff, h]; rfl
      simp only [h, Option.map_none']
      rw [if_neg (by rw [hc]; exact Bool.false_ne_true)]
      exact ih
    | some v =>
      have hc : (kwargs.map Prod.fst).contains p = true := by
        rw [← lookup_isSome_iff, h]; rfl
      simp only [h, Option.map_some']
      rw [if_pos hc, List.map_cons, ih]

/-- The keys of the remainder part of kwargs_ordered are the kwargs keys
outside param_order, in insertion order. -/
theorem map_fst_filter_keys (kwargs : List (String × String)) :
    (kwargs.filter fun q => !(param_order.contains q.1)).map Prod.fst =
      (kwargs.map Prod.fst).filter fun k => !(param_order.contains k) := by
  induction kwargs with
  | nil => rfl
  | cons q t ih =>
    rw [List.map_cons, List.filter_cons, List.filter_cons]
    cases h : !(param_order.contains q.1) with
    | true => rw [if_pos rfl, if_pos rfl, List.map_cons, ih]
    | false =>
      rw [if_neg Bool.false_ne_true, if_neg Bool.false_ne_true]
      exact ih

/-- On a dict with distinct keys, every member pair is what lookup of its
key returns. -/
theorem nodup_lookup (kwargs : List (String × String))
    (hnd : (kwargs.map Prod.fst).Nodup) (k v : String)
    (hmem : (k, v) ∈ kwargs) : kwargs.lookup k = some v := by
  induction kwargs with
  | nil => cases hmem
  | cons q t ih =>
    obtain ⟨k1, v1⟩ := q
    rw [List.map_cons, List.nodup_cons] at hnd
    rw [List.lookup]
    rcases List.mem_cons.mp hmem with heq | hmem'
    · cases heq
      simp
    · have hk : (k == k1) = false := by
        have hne : k ≠ k1 := by
          intro hkk
          apply hnd.1
          have hmap : (k, v).1 ∈ List.map Prod.fst t :=
            List.mem_map_of_mem Prod.fst hmem'
          rw [← hkk]
          exact hmap
        simpa using hne
      rw [hk]
      exact ih hnd.2 hmem'

/-- Every child element of the ordered kwargs dict carries the value kwargs
assigns to its key (keys assumed distinct, as in a Python dict). -/
theorem children_lookup (kwargs : List (String × String))
    (hnd : (kwargs.map Prod.fst).Nodup) (kv : String × String)
    (hkv : kv ∈ kwargs_ordered kwargs) : kwargs.lookup kv.1 = some kv.2 := by
  unfold kwargs_ordered at hkv
  rcases List.mem_append.mp hkv with h1 | h2
  · rcases List.mem_filterMap.mp h1 with ⟨p, _, hp⟩
    rcases Option.map_eq_some'.mp hp with ⟨v, hv, heq⟩
    subst heq
    simpa using hv
  · exact nodup_lookup kwargs hnd kv.1 kv.2 (List.mem_of_mem_filter h2)

/-- C1: the claim states that the chunks produced by df_chunks are
contiguous, non-overlapping, and concatenate to the original dataset. The
source slices with the label-inclusive df.loc, so the code violates the
claim: on a 6-row dataset with batch_size 5, row 5 is both the last row of
chunk 0 and the only row of chunk 1, and concatenation yields 7 rows. -/
theorem C1_loc_slicing_duplicates_rows :
    df_chunks 5 ([0, 1, 2, 3, 4, 5] : List Nat) = [[0, 1, 2, 3, 4, 5], [5]] ∧
      (df_chunks 5 ([0, 1, 2, 3, 4, 5] : List Nat)).flatten ≠
        [0, 1, 2, 3, 4, 5] := by
  decide

/-- C2 counterexample: the claim says df_chunks yields ceil(N/B) chunks of
at most B rows each; on a 5-row dataset with batch_size 5 the code yields
2 chunks, not ceil(5/5) = 1. -/
theorem C2_counterexample_chunk_count :
    ¬ ((df_chunks 5 ([10, 11, 12, 13, 14] : List Nat)).length =
          (5 + 5 - 1) / 5 ∧
        ∀ c ∈ df_chunks 5 ([10, 11, 12, 13, 14] : List Nat),
          c.length ≤ 5) := by
  decide

/-- C2 amended: for every dataset and positive batch size B, df_chunks
produces exactly N / B + 1 chunks (floor division, hence a trailing empty
chunk whenever B divides N) and each chunk has at most B + 1 rows (the
label-inclusive slice takes one row beyond the batch boundary). -/
theorem C2_chunk_count_floor_plus_one {α : Type} (B : Nat) (_hB : 0 < B)
    (df : List α) :
    (df_chunks B df).length = df.length / B + 1 ∧
      ∀ c ∈ df_chunks B df, c.length ≤ B + 1 := by
  constructor
  · simp [df_chunks]
  · intro c hc
    simp only [df_chunks, List.mem_map, List.mem_range] at hc
    obtain ⟨i, _, rfl⟩ := hc
    unfold df_loc_slice
    have h2 : (i + 1) * B = i * B + B := by ring
    have h3 : ((df.drop (i * B)).take ((i + 1) * B + 1 - i * B)).length ≤
        (i + 1) * B + 1 - i * B := List.length_take_le _ _
    omega

/-- C2 witness: the amended count and bound evaluated on a concrete 6-row
dataset with batch_size 5. -/
theorem C2_chunk_count_witness :
    0 < 5 ∧
      ((df_chunks 5 ([0, 1, 2, 3, 4, 5] : List Nat)).length =
          ([0, 1, 2, 3, 4, 5] : List Nat).length / 5 + 1 ∧
        ∀ c ∈ df_chunks 5 ([0, 1, 2, 3, 4, 5] : List Nat),
          c.length ≤ 5 + 1) :=
  ⟨by decide, C2_chunk_count_floor_plus_one 5 (by decide) _⟩

/-- C3: the claim states that a batch status query stores its result in the
batch-level cache and a Completed entry is never re-polled. In the source,
get_status stores the fetched batch record under job_statuses, so after
is_batch_done returns true the batch-level cache is still empty and a
second is_batch_done call polls the remote again (its query list is
nonempty). -/
theorem C3_completed_batch_repolled :
    is_batch_done remoteCompleted s3 "b1" = PyResult.ok true s3b ["b1"] ∧
      s3b.batch_statuses = [] ∧
      s3b.job_statuses.lookup "b1" = some ⟨"Completed", ""⟩ ∧
      is_batch_done remoteCompleted s3b "b1" = PyResult.ok true s3b ["b1"] := by
  decide

/-- C4 counterexample: for the registered job job1 whose batch list is
empty, is_job_done returns a done answer (true) instead of failing with the
job-has-no-batches error. -/
theorem C4_counterexample_empty_batch_list :
    is_job_done oraclePending s4 "job1" = PyResult.ok true s4 [] ∧
      is_job_done oraclePending s4 "job1" ≠
        PyResult.exn (PyErr.jobHasNoBatches "job1") s4 [] := by
  decide

/-- C4 amended: is_job_done raises the job-has-no-batches error exactly for
a job id absent from the batches dict (the KeyError path); for a registered
job with an empty batch list the loop runs zero times and it returns true. -/
theorem C4_no_batches_error_only_when_unregistered (remote : Oracle)
    (s : BulkState) (job_id : String) :
    (s.batches.lookup job_id = none →
      is_job_done remote s job_id =
        PyResult.exn (PyErr.jobHasNoBatches job_id) s []) ∧
    (s.batches.lookup job_id = some [] →
      is_job_done remote s job_id = PyResult.ok true s []) := by
  constructor
  · intro h
    simp [is_job_done, h]
  · intro h
    simp [is_job_done, h, is_job_done_loop]

/-- C4 witness: the amended behavior evaluated on an unregistered job id
and on a registered job with an empty batch list. -/
theorem C4_no_batches_witness :
    is_job_done oraclePending emptyBulkState "jobX" =
        PyResult.exn (PyErr.jobHasNoBatches "jobX") emptyBulkState [] ∧
      is_job_done oraclePending s4 "job1" = PyResult.ok true s4 [] :=
  ⟨(C4_no_batches_error_only_when_unregistered oraclePending emptyBulkState
      "jobX").1 (by decide),
    (C4_no_batches_error_only_when_unregistered oraclePending s4 "job1").2
      (by decide)⟩

/-- C5 counterexample: the claim states that operations through one
SalesforceBulkAPI instance leave the registries observed through any other
instance unchanged. The collections are class attributes, so after instance
instA creates a job, instance instB observes the changed registries. -/
theorem C5_counterexample_shared_registries :
    observed_jobs instB (create_job_via instA emptyBulkState "job1") ≠
        observed_jobs instB emptyBulkState ∧
      observed_batches instB (create_job_via instA emptyBulkState "job1") ≠
        observed_batches instB emptyBulkState := by
  decide

/-- C5 amended: the job/batch registries are class-level attributes shared
by every instance: whichever instance creates a job, every observer
instance sees exactly the mutated shared registries. -/
theorem C5_class_level_state_shared (acting observer : InstanceAttrs)
    (s : BulkState) (job_id : String) :
    observed_jobs observer (create_job_via acting s job_id) =
        observed_jobs observer s ++ [job_id] ∧
      observed_batches observer (create_job_via acting s job_id) =
        dictSet (observed_batches observer s) job_id [] :=
  ⟨rfl, rfl⟩

/-- C6: for a registered batch with no completed cache entry whose
force-reloaded remote state is a terminal-error state, is_batch_done raises
BulkBatchFailed carrying the owning job id, the batch id and the remote
state message, and the batch-level cache is left unchanged (no success is
cached or returned). -/
theorem C6_error_state_raises_batch_failed (remote : Oracle) (s : BulkState)
    (b j : String) (hnc : s.batch_statuses.lookup b = none)
    (hreg : lookup_job_id s b = Except.ok j)
    (herr : ERROR_STATES.contains (remote b).state = true) :
    is_batch_done remote s b =
        PyResult.exn (PyErr.bulkBatchFailed j b (remote b).stateMessage)
          (pollState s b (remote b)) [b] ∧
      (pollState s b (remote b)).batch_statuses = s.batch_statuses :=
  ⟨is_batch_done_poll_exn remote s b j hnc hreg herr, rfl⟩

/-- C6 witness: the Failed remote state with message boom raises
BulkBatchFailed for batch b1 of job job1. -/
theorem C6_batch_failed_witness :
    is_batch_done remoteFailed s3 "b1" =
        PyResult.exn
          (PyErr.bulkBatchFailed "job1" "b1" (remoteFailed "b1").stateMessage)
          (pollState s3 "b1" (remoteFailed "b1")) ["b1"] ∧
      (pollState s3 "b1" (remoteFailed "b1")).batch_statuses =
        s3.batch_statuses :=
  C6_error_state_raises_batch_failed remoteFailed s3 "b1" "job1" (by rfl)
    (by rfl) (by decide)

/-- C7: for a job with a (non-empty) registered batch list, none of whose
batches is in an error state, is_job_done checks batches in registration
order, polls exactly the batches up to and including the first pending one,
and returns true exactly when every batch in the list is done. -/
theorem C7_is_job_done_short_circuit (remote : Oracle) (s : BulkState)
    (job_id : String) (l : List String)
    (hl : s.batches.lookup job_id = some l) (_hne : l ≠ [])
    (hnc : ∀ b ∈ l, s.batch_statuses.lookup b = none)
    (herr : ∀ b ∈ l, ERROR_STATES.contains (remote b).state = false) :
    ∃ s', is_job_done remote s job_id =
      PyResult.ok (l.all (doneB remote)) s'
        (polled_until_pending remote l) := by
  have hreg : ∀ b ∈ l, ∃ j, lookup_job_id s b = Except.ok j :=
    fun b hb => lookup_job_id_ok_of_entry s job_id l b hl hb
  obtain ⟨s', hs', _, _⟩ := is_job_done_loop_spec remote l s [] hnc herr hreg
  refine ⟨s', ?_⟩
  unfold is_job_done
  rw [hl]
  simpa using hs'

/-- C7 witness: with batches [b1 done, b2 pending, b3 done], is_job_done
returns false and polls exactly b1 and b2, not b3. -/
theorem C7_short_circuit_witness :
    ∃ s', is_job_done remote3 s7 "j1" =
      PyResult.ok false s' ["b1", "b2"] := by
  obtain ⟨s', h⟩ := C7_is_job_done_short_circuit remote3 s7 "j1"
    ["b1", "b2", "b3"] (by rfl) (by decide) (by decide) (by decide)
  have e1 : (["b1", "b2", "b3"] : List String).all (doneB remote3) = false := by
    decide
  have e2 : polled_until_pending remote3 ["b1", "b2", "b3"] = ["b1", "b2"] := by
    decide
  rw [e1, e2] at h
  exact ⟨s', h⟩

/-- C8: for a registered, uncached batch whose remote state never becomes
terminal, wait_for_batch exits normally (no exception) once the accumulated
waiting time reaches the timeout, and a subsequent is_batch_done call still
reports the batch as not done. -/
theorem C8_wait_for_batch_timeout_silent (remote : Oracle) (s : BulkState)
    (b j : String) (timeout si : Nat) (hsi : 0 < si)
    (hnc : s.batch_statuses.lookup b = none)
    (hreg : lookup_job_id s b = Except.ok j)
    (herr : ERROR_STATES.contains (remote b).state = false)
    (hnd : pyIn (remote b).state COMPLETED_STATES = false) :
    ∃ s' q, wait_for_batch remote s b timeout si hsi = PyResult.ok () s' q ∧
      ∃ s'', is_batch_done remote s' b = PyResult.ok false s'' [b] := by
  obtain ⟨s', q, hloop, hnc', hreg'⟩ :=
    wait_loop_pending_aux remote b j timeout si hsi herr hnd timeout 0 s []
      (by omega) hnc hreg
  refine ⟨s', q, hloop, pollState s' b (remote b), ?_⟩
  rw [is_batch_done_poll_ok remote s' b j hnc' hreg' herr, hnd]

/-- C8 witness: a batch stuck in Queued with timeout 20 and sleep interval
10: the wait returns normally and the batch still reports not done. -/
theorem C8_timeout_witness :
    ∃ s' q, wait_for_batch remoteQueued s3 "b1" 20 10 (by decide) =
        PyResult.ok () s' q ∧
      ∃ s'', is_batch_done remoteQueued s' "b1" =
        PyResult.ok false s'' ["b1"] :=
  C8_wait_for_batch_timeout_silent remoteQueued s3 "b1" "job1" 20 10
    (by decide) (by rfl) (by rfl) (by decide) (by decide)

/-- C9: for every keyword dict (distinct keys), the document built by
create_job_doc is the XML declaration plus a jobInfo root in the async-API
namespace whose children are the supplied param_order fields in param_order
order followed by the remaining supplied fields in insertion order, each
carrying the supplied value. -/
theorem C9_create_job_doc_structure (kwargs : List (String × String))
    (hnd : (kwargs.map Prod.fst).Nodup) :
    (create_job_doc kwargs).xml_declaration =
        "<?xml version=\"1.0\" encoding=\"UTF-8\"?>" ∧
      (create_job_doc kwargs).rootTag = "jobInfo" ∧
      (create_job_doc kwargs).xmlns = jobNS ∧
      (create_job_doc kwargs).children.map Prod.fst =
        (param_order.filter fun p => (kwargs.map Prod.fst).contains p) ++
          ((kwargs.map Prod.fst).filter fun k =>
            !(param_order.contains k)) ∧
      ∀ kv ∈ (create_job_doc kwargs).children,
        kwargs.lookup kv.1 = some kv.2 := by
  refine ⟨rfl, rfl, rfl, ?_, ?_⟩
  · show (kwargs_ordered kwargs).map Prod.fst = _
    unfold kwargs_ordered
    rw [List.map_append, map_fst_filterMap_lookup, map_fst_filter_keys]
  · intro kv hkv
    exact children_lookup kwargs hnd kv hkv

/-- C9 witness: a dict supplied in the order object, operation,
contentType, assignmentRuleId produces children keyed operation, object,
contentType, assignmentRuleId, with the supplied values. -/
theorem C9_doc_witness :
    (kwargs0.map Prod.fst).Nodup ∧
      ((create_job_doc kwargs0).children.map Prod.fst =
          ["operation", "object", "contentType", "assignmentRuleId"] ∧
        ∀ kv ∈ (create_job_doc kwargs0).children,
          kwargs0.lookup kv.1 = some kv.2) := by
  refine ⟨by decide, ?_,
    (C9_create_job_doc_structure kwargs0 (by decide)).2.2.2.2⟩
  have h := (C9_create_job_doc_structure kwargs0 (by decide)).2.2.2.1
  rw [h]
  decide

/-- C10: in is_batch_done, a polled non-error batch state is classified as
terminal success exactly when the state string is a contiguous substring of
the string Completed (COMPLETED_STATES is the string, not a tuple). -/
theorem C10_completed_substring_classification (remote : Oracle)
    (s : BulkState) (b j : String)
    (hnc : s.batch_statuses.lookup b = none)
    (hreg : lookup_job_id s b = Except.ok j)
    (herr : ERROR_STATES.contains (remote b).state = false) :
    is_batch_done remote s b =
        PyResult.ok (pyIn (remote b).state COMPLETED_STATES)
          (pollState s b (remote b)) [b] ∧
      (pyIn (remote b).state COMPLETED_STATES = true ↔
        ∃ pre post : List Char,
          pre ++ (remote b).state.data ++ post = COMPLETED_STATES.data) :=
  ⟨is_batch_done_poll_ok remote s b j hnc hreg herr,
    pyIn_iff (remote b).state COMPLETED_STATES⟩

/-- C10 witness: the truncated state Complete, a strict substring of
Completed, is treated as a completed batch. -/
theorem C10_substring_witness :
    is_batch_done remoteComplete s3 "b1" =
      PyResult.ok true (pollState s3 "b1" (remoteComplete "b1")) ["b1"] := by
  have h := (C10_completed_substring_classification remoteComplete s3 "b1"
    "job1" (by rfl) (by rfl) (by decide)).1
  rw [h]
  decide

end SfdcBulk
